import Mathlib

/-!
Shallow embedding of the ContainerEye metrics-collection and alert-evaluation
engine (Go sources under internal/alert, internal/monitor and internal/models),
together with theorems settling the frozen claims about it.

Modelling conventions:
* Go `float64` metric values and thresholds become `ℚ` (the claims are about
  comparisons, not rounding).
* Go `time.Time` / `time.Duration` become `Int` seconds.
* Go string-backed enumerations (`models.Operator`, `models.Metric`,
  `models.AlertStatus`, `models.AlertLevel`) stay `String`, so that values
  outside the recognized sets are expressible, exactly as in Go.
* Database writes and notification sends are the only fallible effects on the
  evaluation path; they are modelled by explicit error oracles
  (`sendErr`, `saveErr`, `createOk`, ...).
-/

namespace ContainerEye

/-- Constants of `models.Operator` (internal/models, AlertRule model). -/
def OperatorGT : String := ">"

def OperatorLT : String := "<"

def OperatorGTE : String := ">="

def OperatorLTE : String := "<="

def OperatorEQ : String := "=="

/-- Constants of `models.Metric`. -/
def MetricCPUUsage : String := "cpu_percent"

def MetricMemoryUsage : String := "memory_percent"

def MetricDiskIO : String := "disk_io_total"

def MetricNetworkIO : String := "network_total"

/-- Constants of `models.AlertStatus`. -/
def AlertStatusPending : String := "PENDING"

def AlertStatusActive : String := "ACTIVE"

def AlertStatusResolved : String := "RESOLVED"

def AlertStatusAcknowledged : String := "ACKNOWLEDGED"

/-- The fields of `models.ContainerStats` read by the evaluation engine. -/
structure ContainerStats where
  containerID : String
  containerName : String
  cpuPercent : ℚ
  memoryPercent : ℚ
  diskIOTotal : ℚ
  networkTotal : ℚ
  deriving Repr, DecidableEq

/-- The fields of `models.AlertRule` read or written by the evaluation engine. -/
structure AlertRule where
  id : Nat
  name : String
  containerID : String
  containerName : String
  metric : String
  operator : String
  threshold : ℚ
  duration : Int
  cooldownPeriod : Int
  level : String
  isEnabled : Bool
  lastTriggered : Option Int
  triggerCount : Nat
  deriving Repr, DecidableEq

/-- The fields of `models.Alert` produced or mutated by the engine. -/
structure Alert where
  id : Nat
  ruleID : Nat
  containerID : String
  containerName : String
  level : String
  metric : String
  threshold : ℚ
  currentValue : ℚ
  status : String
  startTime : Int
  value : ℚ
  acknowledgedBy : String
  acknowledgedAt : Int
  resolvedBy : String
  resolvedAt : Int
  deriving Repr, DecidableEq

/-- Per-rule violation state `alert.ruleState` (internal/alert/evaluator.go). -/
structure ruleState where
  violationStart : Int
  isViolating : Bool
  lastValue : ℚ
  deriving Repr, DecidableEq

/-- The zero `ruleState{}` created on a state-cache miss. -/
def ruleState.init : ruleState := ⟨0, false, 0⟩

/-- Embedding of `RuleEvaluator.evaluateCondition` (internal/alert/evaluator.go): switch on
the operator; any unrecognized operator falls to the default branch `false`. -/
def evaluateCondition (operator : String) (current threshold : ℚ) : Bool :=
  if operator = OperatorGT then current > threshold
  else if operator = OperatorLT then current < threshold
  else if operator = OperatorGTE then current ≥ threshold
  else if operator = OperatorLTE then current ≤ threshold
  else if operator = OperatorEQ then current = threshold
  else false

/-- Embedding of `RuleEvaluator.extractMetricValue` (internal/alert/evaluator.go): switch on
the metric; any unrecognized metric falls to the default branch `0`. -/
def extractMetricValue (metric : String) (stats : ContainerStats) : ℚ :=
  if metric = MetricCPUUsage then stats.cpuPercent
  else if metric = MetricMemoryUsage then stats.memoryPercent
  else if metric = MetricDiskIO then stats.diskIOTotal
  else if metric = MetricNetworkIO then stats.networkTotal
  else 0

/-- Result of one `RuleEvaluator.EvaluateMetric` call: the rule state left in
the state cache, the (possibly updated) rule row, the alert sent if any, and
the returned error if any. -/
structure EvalResult where
  state : ruleState
  rule : AlertRule
  alert : Option Alert
  err : Option String
  deriving Repr, DecidableEq

/-- The `models.Alert` literal built by `EvaluateMetric` when a violation has
lasted at least `rule.Duration`. -/
def buildAlert (rule : AlertRule) (stats : ContainerStats) (currentValue : ℚ)
    (violationStart : Int) : Alert :=
  { id := 0
    ruleID := rule.id
    containerID := stats.containerID
    containerName := stats.containerName
    level := rule.level
    metric := rule.metric
    threshold := rule.threshold
    currentValue := currentValue
    status := AlertStatusActive
    startTime := violationStart
    value := currentValue
    acknowledgedBy := ""
    acknowledgedAt := 0
    resolvedBy := ""
    resolvedAt := 0 }

/-- Embedding of `RuleEvaluator.EvaluateMetric` (internal/alert/evaluator.go lines 33-91).
`now` is the evaluation wall-clock time; `sendErr` models a failure of
`AlertManager.SendAlert`, `saveErr` a failure of `db.Save(rule)`. On an error
return the Go code has already mutated the cached state (violation start /
flag) but skips the trailing `state.LastValue` write, which the result's
`state` field reproduces. -/
def EvaluateMetric (sendErr : Alert → Option String) (saveErr : AlertRule → Option String)
    (rule : AlertRule) (stats : ContainerStats) (now : Int) (state : ruleState) : EvalResult :=
  let currentValue := extractMetricValue rule.metric stats
  let isViolating := evaluateCondition rule.operator currentValue rule.threshold
  if isViolating then
    let state1 :=
      if !state.isViolating then
        { state with violationStart := now, isViolating := true }
      else state
    if now - state1.violationStart ≥ rule.duration then
      let alert := buildAlert rule stats currentValue state1.violationStart
      match sendErr alert with
      | some e => ⟨state1, rule, none, some ("failed to send alert: " ++ e)⟩
      | none =>
        let rule1 := { rule with
          lastTriggered := some now
          triggerCount := rule.triggerCount + 1 }
        match saveErr rule1 with
        | some e => ⟨state1, rule1, some alert, some ("failed to update rule: " ++ e)⟩
        | none => ⟨{ state1 with lastValue := currentValue }, rule1, some alert, none⟩
    else ⟨{ state1 with lastValue := currentValue }, rule, none, none⟩
  else
    let state1 :=
      if state.isViolating then { state with isViolating := false } else state
    ⟨{ state1 with lastValue := currentValue }, rule, none, none⟩

/-- The always-succeeding effect oracle (database and notification sinks up). -/
def noFail {α : Type} : α → Option String := fun _ => none

/-- Repeated evaluation of one rule over a timed sample sequence (the evaluation
cadence of the collector loop), threading the cached state and the rule row;
effects never fail. Returns the final state and every fired alert tagged with
its evaluation time. -/
def runEvaluate (rule : AlertRule) (state : ruleState) :
    List (Int × ContainerStats) → ruleState × List (Int × Alert)
  | [] => (state, [])
  | (t, s) :: rest =>
    let r := EvaluateMetric noFail noFail rule s t state
    let res := runEvaluate r.rule r.state rest
    (res.1, (match r.alert with | some a => [(t, a)] | none => []) ++ res.2)

/-- The target-filter test of `RuleManager.EvaluateRules`: a rule is skipped
unless its (possibly empty) container-id and container-name filters match. -/
def ruleMatches (rule : AlertRule) (stats : ContainerStats) : Bool :=
  (rule.containerID = "" || rule.containerID = stats.containerID) &&
    (rule.containerName = "" || rule.containerName = stats.containerName)

/-- The loop body of `RuleManager.EvaluateRules` over the fetched enabled
rules, threading the evaluator's shared state cache (keyed by rule id; a miss
yields the zero state). Returns the updated cache, the ids of the rules for
which `EvaluateMetric` was invoked, and the error `EvaluateRules` returns:
the first `EvaluateMetric` error aborts the loop immediately. -/
def evaluateRulesLoop (sendErr : Alert → Option String) (saveErr : AlertRule → Option String)
    (stats : ContainerStats) (now : Int) :
    (Nat → ruleState) → List AlertRule → (Nat → ruleState) × List Nat × Option String
  | cache, [] => (cache, [], none)
  | cache, rule :: rest =>
    if rule.containerID ≠ "" && rule.containerID ≠ stats.containerID then
      evaluateRulesLoop sendErr saveErr stats now cache rest
    else if rule.containerName ≠ "" && rule.containerName ≠ stats.containerName then
      evaluateRulesLoop sendErr saveErr stats now cache rest
    else
      let r := EvaluateMetric sendErr saveErr rule stats now (cache rule.id)
      let cache1 := fun i => if i = rule.id then r.state else cache i
      match r.err with
      | some e => (cache1, [rule.id], some ("failed to evaluate rule: " ++ e))
      | none =>
        let res := evaluateRulesLoop sendErr saveErr stats now cache1 rest
        (res.1, rule.id :: res.2.1, res.2.2)

/-- Embedding of `RuleManager.EvaluateRules`: fetch the enabled rules (`is_enabled = true`)
and run the loop body over them against one sample. -/
def EvaluateRules (sendErr : Alert → Option String) (saveErr : AlertRule → Option String)
    (db : List AlertRule) (stats : ContainerStats) (now : Int) (cache : Nat → ruleState) :
    (Nat → ruleState) × List Nat × Option String :=
  evaluateRulesLoop sendErr saveErr stats now cache (db.filter (·.isEnabled))

/-- Constant `retryAttempts` (internal/monitor/collector.go). -/
def retryAttempts : Nat := 3

/-- The payload of one successful runtime stats/inspect response, after the
derived-value computations of `collectContainerStats` (CPU and memory percent,
I/O totals): everything of the produced `ContainerStats` except the container
id, which `collectContainerStats` sets from its own argument. -/
structure RawStats where
  containerName : String
  cpuPercent : ℚ
  memoryPercent : ℚ
  diskIOTotal : ℚ
  networkTotal : ℚ
  deriving Repr, DecidableEq

/-- The `ContainerStats` literal returned by `collectContainerStats` (line 320):
`ContainerID` is the queried container id. -/
def mkStats (containerID : String) (r : RawStats) : ContainerStats :=
  { containerID := containerID
    containerName := r.containerName
    cpuPercent := r.cpuPercent
    memoryPercent := r.memoryPercent
    diskIOTotal := r.diskIOTotal
    networkTotal := r.networkTotal }

/-- The retry loop of `Collector.collectContainerStatsWithRetry`: try attempts
`start, start+1, ...` while fuel remains, returning the first success. -/
def tryAttempts (attempts : Nat → Option RawStats) : Nat → Nat → Option RawStats
  | _, 0 => none
  | start, fuel + 1 =>
    match attempts start with
    | some s => some s
    | none => tryAttempts attempts (start + 1) fuel

/-- Embedding of `Collector.collectContainerStatsWithRetry`: up to `retryAttempts` calls to
`collectContainerStats`; on exhaustion a single error for the container.
`attempts n` is the runtime's response to the n-th fetch for this container. -/
def collectContainerStatsWithRetry (containerID : String)
    (attempts : Nat → Option RawStats) : Except String ContainerStats :=
  match tryAttempts attempts 0 retryAttempts with
  | some r => Except.ok (mkStats containerID r)
  | none => Except.error "failed after 3 attempts"

/-- The fetch phase of one batch in `Collector.collect`: fetch every container
with retry, in order; a container whose retries are exhausted contributes one
error and is skipped, the rest contribute their stats. -/
def fetchBatch (attempts : String → Nat → Option RawStats) :
    List String → List ContainerStats × List String
  | [] => ([], [])
  | c :: rest =>
    let res := fetchBatch attempts rest
    match collectContainerStatsWithRetry c (attempts c) with
    | Except.ok s => (s :: res.1, res.2)
    | Except.error e =>
      (res.1, ("error collecting stats for container " ++ c ++ ": " ++ e) :: res.2)

/-- The containers of a batch whose fetch succeeded within the retry budget,
as the stats rows they produced: the rows `Collector.collect` hands to
`batchInsertStats` for the batch. -/
def fetchSuccesses (attempts : String → Nat → Option RawStats) (batch : List String) :
    List ContainerStats :=
  batch.filterMap (fun c => (collectContainerStatsWithRetry c (attempts c)).toOption)

/-- The insert loop inside the `gorm` transaction of
`Collector.batchInsertStats`: create each row in order; the first failing
create aborts the transaction. `createOk` models the per-row outcome of
`tx.Create`. -/
def insertLoop (createOk : ContainerStats → Bool) : List ContainerStats → Option String
  | [] => none
  | s :: rest => if createOk s then insertLoop createOk rest else some "create failed"

/-- Embedding of `Collector.batchInsertStats`: one transaction; on any row error the
transaction rolls back, so either every row of the batch is persisted or none
is and one error is reported for the batch. -/
def batchInsertStats (createOk : ContainerStats → Bool) (stats : List ContainerStats) :
    Except String (List ContainerStats) :=
  match insertLoop createOk stats with
  | none => Except.ok stats
  | some e => Except.error e

/-- Outcome of processing one batch inside `Collector.collect`: the rows that
ended up persisted, the container ids of the samples fed to
`RuleManager.EvaluateRules`, the errors the batch pushed onto the error
channel, and the evaluator cache after the batch. -/
structure BatchResult where
  persisted : List ContainerStats
  evaluatedSamples : List String
  errors : List String
  cache : Nat → ruleState

/-- The per-sample evaluation loop after a successful batch insert: every
persisted stat is fed to `EvaluateRules`; an evaluation error is pushed onto
the error channel and the loop continues with the next sample. -/
def evalSamplesLoop (sendErr : Alert → Option String) (saveErr : AlertRule → Option String)
    (db : List AlertRule) (now : Int) :
    (Nat → ruleState) → List ContainerStats → (Nat → ruleState) × List String
  | cache, [] => (cache, [])
  | cache, s :: rest =>
    let r := EvaluateRules sendErr saveErr db s now cache
    let res := evalSamplesLoop sendErr saveErr db now r.1 rest
    match r.2.2 with
    | some e =>
      (res.1, ("error evaluating rules for container " ++ s.containerID ++ ": " ++ e) :: res.2)
    | none => (res.1, res.2)

/-- The body of one batch goroutine in `Collector.collect` (lines 128-164):
fetch each container with retry (collecting per-container errors), then, if any
stats were fetched, insert them in one transaction — an insert failure reports
one error and skips evaluation for the batch — and finally evaluate the rules
against every inserted sample, collecting per-sample evaluation errors. -/
def processBatch (attempts : String → Nat → Option RawStats)
    (createOk : ContainerStats → Bool)
    (sendErr : Alert → Option String) (saveErr : AlertRule → Option String)
    (db : List AlertRule) (now : Int) (cache : Nat → ruleState)
    (batch : List String) : BatchResult :=
  let fetched := fetchBatch attempts batch
  if fetched.1.isEmpty then
    ⟨[], [], fetched.2, cache⟩
  else
    match batchInsertStats createOk fetched.1 with
    | Except.error e =>
      ⟨[], [], fetched.2 ++ ["error inserting stats batch: " ++ e], cache⟩
    | Except.ok rows =>
      let ev := evalSamplesLoop sendErr saveErr db now cache rows
      ⟨rows, rows.map (·.containerID), fetched.2 ++ ev.2, ev.1⟩

/-- Constant `maxBatchSize` (internal/monitor/collector.go). -/
def maxBatchSize : Nat := 100

/-- The batch-partition loop of `Collector.collect` (lines 113-120):
contiguous chunks of the current batch size. The Go loop advances by
`batchSize`, which the collector keeps positive; the `bs = 0` guard only makes
the recursion total. -/
def chunk (bs : Nat) (xs : List String) : List (List String) :=
  if bs = 0 ∨ xs = [] then []
  else xs.take bs :: chunk bs (xs.drop bs)
termination_by xs.length
decreasing_by
  simp only [List.length_drop]
  rename_i h
  push_neg at h
  have hx : 0 < xs.length := List.length_pos.mpr h.2
  omega

/-- Processing of all batches of a tick in order, threading the evaluator
cache (the Go code runs batches concurrently; error collection and the set of
persisted/evaluated rows are order-insensitive, and per-rule evaluation is
serialized by the evaluator mutex, which sequential threading models). -/
def processBatches (attempts : String → Nat → Option RawStats)
    (createOk : ContainerStats → Bool)
    (sendErr : Alert → Option String) (saveErr : AlertRule → Option String)
    (db : List AlertRule) (now : Int) :
    (Nat → ruleState) → List (List String) → List BatchResult
  | _, [] => []
  | cache, b :: rest =>
    let r := processBatch attempts createOk sendErr saveErr db now cache b
    r :: processBatches attempts createOk sendErr saveErr db now r.cache rest

/-- Embedding of `Collector.collect` (lines 96-189): list containers (a listing failure
aborts the tick with its own error), partition into batches, process every
batch, then drain the error channel and, if any error was collected, return
one combined error for the tick; otherwise the tick succeeds. -/
def collectTick (listResult : Except String (List String)) (bs : Nat)
    (attempts : String → Nat → Option RawStats) (createOk : ContainerStats → Bool)
    (sendErr : Alert → Option String) (saveErr : AlertRule → Option String)
    (db : List AlertRule) (now : Int) (cache : Nat → ruleState) :
    Except String (List BatchResult) :=
  match listResult with
  | Except.error e => Except.error ("failed to list containers: " ++ e)
  | Except.ok containers =>
    let results := processBatches attempts createOk sendErr saveErr db now cache
      (chunk bs containers)
    let errors := (results.map (·.errors)).flatten
    if errors = [] then Except.ok results
    else Except.error ("collection errors: " ++ String.intercalate "; " errors)

/-- Embedding of `Collector.adjustBatchSize` (lines 215-233): `avg` is the running-average
processing time in seconds; shrink by 20% (Go integer division) when the
average exceeds 5s and the batch size exceeds 10, then grow by 20% clamped to
`maxBatchSize` when the average is below 1s and the size is below the cap. -/
def adjustBatchSize (avg : ℚ) (bs : Nat) : Nat :=
  let bs1 := if avg > 5 ∧ bs > 10 then bs * 8 / 10 else bs
  if avg < 1 ∧ bs1 < maxBatchSize then
    let grown := bs1 * 12 / 10
    if grown > maxBatchSize then maxBatchSize else grown
  else bs1

/-- The batch sizes a collector can reach: the initial size is
`maxBatchSize = 100`, and each tick may adjust it once with whatever
running-average processing time the tick observed. -/
inductive ReachableBatchSize : Nat → Prop
  | init : ReachableBatchSize maxBatchSize
  | step (avg : ℚ) (bs : Nat) :
      ReachableBatchSize bs → ReachableBatchSize (adjustBatchSize avg bs)

/-- Lookup `db.First(&alert, "id = ?", alertID)`: the first row with the given id. -/
def findAlert (db : List Alert) (alertID : Nat) : Option Alert :=
  db.find? (fun a => a.id = alertID)

/-- Save `db.Save(&alert)`: overwrite the row with the same id. -/
def saveAlert (db : List Alert) (a : Alert) : List Alert :=
  db.map (fun x => if x.id = a.id then a else x)

/-- Embedding of `AlertManager.AcknowledgeAlert` (alert manager source): look the alert up
by id — failure only when it does not exist — then unconditionally set status
Acknowledged, the acknowledging user and the timestamp, and save. -/
def AcknowledgeAlert (db : List Alert) (alertID : Nat) (userID : String) (now : Int) :
    Except String (List Alert) :=
  match findAlert db alertID with
  | none => Except.error "failed to find alert"
  | some a =>
    Except.ok (saveAlert db { a with
      status := AlertStatusAcknowledged
      acknowledgedBy := userID
      acknowledgedAt := now })

/-- Embedding of `AlertManager.ResolveAlert`: look the alert up by id — failure only when
it does not exist — then unconditionally set status Resolved, the resolving
user and the timestamp, and save. -/
def ResolveAlert (db : List Alert) (alertID : Nat) (userID : String) (now : Int) :
    Except String (List Alert) :=
  match findAlert db alertID with
  | none => Except.error "failed to find alert"
  | some a =>
    Except.ok (saveAlert db { a with
      status := AlertStatusResolved
      resolvedBy := userID
      resolvedAt := now })

/-- Outcome of `Collector.Start`: the error `Start` itself returns, and how
many collections the spawned loop ever runs afterwards. -/
structure StartOutcome where
  startError : Option String
  loopCollections : Nat
  deriving Repr, DecidableEq

/-- Embedding of `Collector.Start` (lines 67-90) together with the semantics
of `time.NewTicker` and the deferred `ticker.Stop()` on line 69. `Start` runs
one collection synchronously; if it fails, the error is returned and the loop
goroutine is never spawned. Otherwise the goroutine is spawned and `Start`
returns at once, which fires the deferred `ticker.Stop()`: from then on the
ticker delivers nothing, so the loop can only ever consume a tick that was
already buffered — the ticker channel holds at most one tick, pending exactly
when the synchronous initial collection itself lasted at least one interval
(`initialTookInterval`) — runs `collect` once for it, with the outcome
(`bufferedTickOutcome`) merely printed and discarded, and afterwards blocks on
the select until the stop signal, never collecting again. -/
def CollectorStart (initial : Option String) (initialTookInterval : Bool)
    (bufferedTickOutcome : Option String) : StartOutcome :=
  match initial with
  | some e => ⟨some e, 0⟩
  | none => ⟨none, if initialTookInterval then 1 else 0⟩

/-- A cpu-only sample for container `c1`/`web` with the given CPU percentage. -/
def cpuSample (cpu : ℚ) : ContainerStats :=
  { containerID := "c1", containerName := "web", cpuPercent := cpu,
    memoryPercent := 0, diskIOTotal := 0, networkTotal := 0 }

/-- The spec scenario rule: cpu_percent > 90 sustained for 300 seconds. -/
def c1Rule : AlertRule :=
  { id := 1, name := "High CPU Usage", containerID := "", containerName := "",
    metric := MetricCPUUsage, operator := OperatorGT, threshold := 90,
    duration := 300, cooldownPeriod := 1800, level := "WARNING",
    isEnabled := true, lastTriggered := none, triggerCount := 0 }

/-- Twelve samples at 95% CPU, one every 30 seconds from t=0 to t=330: an
uninterrupted violation of `c1Rule` lasting 330 seconds. -/
def c1Samples : List (Int × ContainerStats) :=
  (List.range 12).map (fun i => ((30 * i : Int), cpuSample 95))

/-- Variant of `c1Rule` with duration 0 ("alert on the very first violating sample") and
a 1800-second cooldown. -/
def c2Rule : AlertRule := { c1Rule with duration := 0 }

/-- Two violating samples 30 seconds apart — far less than the cooldown. -/
def c2Samples : List (Int × ContainerStats) :=
  [((0 : Int), cpuSample 95), ((30 : Int), cpuSample 95)]

/-- A notification-sink outage: every `SendAlert` fails. -/
def sendFail : Alert → Option String := fun _ => some "smtp down"

/-- Duration-0 rules matching every container; both fire on the first
violating sample, so a sink outage makes their evaluation error. -/
def c3RuleA : AlertRule := { c2Rule with id := 1 }

def c3RuleB : AlertRule := { c2Rule with id := 2, name := "High CPU Usage B" }

/-- An alert already resolved by an operator. -/
def resolvedAlert : Alert :=
  { id := 1, ruleID := 1, containerID := "c1", containerName := "web",
    level := "WARNING", metric := "cpu_percent", threshold := 90,
    currentValue := 95, status := AlertStatusResolved, startTime := 0,
    value := 95, acknowledgedBy := "", acknowledgedAt := 0,
    resolvedBy := "ops", resolvedAt := 10 }

/-- A runtime response payload used by the collector examples. -/
def rawWeb : RawStats :=
  { containerName := "web", cpuPercent := 50, memoryPercent := 0,
    diskIOTotal := 0, networkTotal := 0 }

/-- A fetch oracle under which container `bad` fails every attempt and every
other container succeeds immediately. -/
def attempts7 : String → Nat → Option RawStats :=
  fun c _ => if c = "bad" then none else some rawWeb

/-- Variant of `c1Rule` that is disabled. -/
def c8RuleOff : AlertRule := { c1Rule with id := 2, isEnabled := false }

/-- Variant of `c1Rule` targeting a different container id. -/
def c8RuleOther : AlertRule := { c1Rule with id := 3, containerID := "zzz" }

/-- Variant of `c1Rule` with an operator and a metric outside the recognized sets. -/
def c10Rule : AlertRule := { c1Rule with operator := "!=", metric := "gpu_percent" }

/-- C1: the claim fails on the code. With rule duration D = 300s and an
uninterrupted violation sampled every 30s from t = 0 to t = 330, the first
evaluation with elapsed ≥ D (t = 300) fires an Active alert, but the next
evaluation of the same uninterrupted violation fires a second Active alert at
t = 330: `EvaluateMetric` has no once-per-violation latch and re-fires on every
evaluation once the duration is reached. -/
theorem evaluator_refires_every_tick_after_duration :
    ((runEvaluate c1Rule ruleState.init c1Samples).2.map (·.1) = [300, 330]) ∧
    ((runEvaluate c1Rule ruleState.init c1Samples).2.map (fun p => p.2.status) =
      [AlertStatusActive, AlertStatusActive]) := by
  decide

/-- C2: the claim fails on the code. With a duration-0 rule whose cooldown is
1800s, two violating samples 30 seconds apart each fire an alert: nothing in
`EvaluateMetric` consults `lastTriggered + cooldownPeriod`, so separate alerts
for the same rule and target are fired 30s < 1800s apart. -/
theorem evaluator_fires_within_cooldown :
    ((runEvaluate c2Rule ruleState.init c2Samples).2.map (·.1) = [0, 30]) ∧
    ((30 : Int) - 0 < c2Rule.cooldownPeriod) := by
  decide

/-- C3, counterexample: an evaluation error for one rule stops evaluation of
the remaining rules for that sample. With two enabled, matching, duration-0
rules under a notification outage, `EvaluateRules` evaluates rule 1, hits its
error and returns immediately: rule 2 is never evaluated. -/
theorem evaluateRules_first_error_skips_remaining_rules :
    (EvaluateRules sendFail noFail [c3RuleA, c3RuleB] (cpuSample 95) 0
        (fun _ => ruleState.init)).2 =
      ([1], some "failed to evaluate rule: failed to send alert: smtp down") ∧
    2 ∉ (EvaluateRules sendFail noFail [c3RuleA, c3RuleB] (cpuSample 95) 0
        (fun _ => ruleState.init)).2.1 := by
  constructor
  · rfl
  · intro h
    simp only [show (EvaluateRules sendFail noFail [c3RuleA, c3RuleB] (cpuSample 95) 0
      (fun _ => ruleState.init)).2.1 = [1] from rfl] at h
    exact absurd h (by decide)

/-- C5, counterexample: acknowledging a Resolved alert does not fail with a
state error — `AlertManager.AcknowledgeAlert` has no status precondition, so it
succeeds and overwrites the Resolved alert with status Acknowledged. -/
theorem acknowledgeAlert_succeeds_on_resolved_alert :
    AcknowledgeAlert [resolvedAlert] 1 "oncall" 50 =
      Except.ok [{ resolvedAlert with
        status := AlertStatusAcknowledged
        acknowledgedBy := "oncall"
        acknowledgedAt := 50 }] := by
  rfl

/-- C4, counterexample: the batch size can leave [10, 100]. Starting from the
initial size 100, ten consecutive ticks whose running-average processing time
is 6s shrink it 100 → 80 → 64 → 51 → 40 → 32 → 25 → 20 → 16 → 12 → 9: the 20%
shrink uses integer division and the `> 10` guard lets 12 and 11 shrink to 9
and 8. -/
theorem reachable_batch_size_below_ten :
    ReachableBatchSize 9 ∧ ¬ (10 ≤ 9 ∧ 9 ≤ 100) := by
  refine ⟨?_, by decide⟩
  have h100 : ReachableBatchSize 100 := ReachableBatchSize.init
  have step : ∀ b b' : Nat, adjustBatchSize 6 b = b' → ReachableBatchSize b →
      ReachableBatchSize b' := by
    intro b b' hb hr
    exact hb ▸ ReachableBatchSize.step 6 b hr
  have h80 := step 100 80 (by decide) h100
  have h64 := step 80 64 (by decide) h80
  have h51 := step 64 51 (by decide) h64
  have h40 := step 51 40 (by decide) h51
  have h32 := step 40 32 (by decide) h40
  have h25 := step 32 25 (by decide) h32
  have h20 := step 25 20 (by decide) h25
  have h16 := step 20 16 (by decide) h20
  have h12 := step 16 12 (by decide) h16
  exact step 12 9 (by decide) h12

lemma adjustBatchSize_mem (avg : ℚ) (bs : Nat) (h8 : 8 ≤ bs) (h100 : bs ≤ 100) :
    8 ≤ adjustBatchSize avg bs ∧ adjustBatchSize avg bs ≤ 100 := by
  simp only [adjustBatchSize, maxBatchSize]
  by_cases h1 : avg > 5 ∧ bs > 10
  · rw [if_pos h1]
    by_cases h2 : avg < 1 ∧ bs * 8 / 10 < 100
    · rw [if_pos h2]
      by_cases h3 : bs * 8 / 10 * 12 / 10 > 100
      · rw [if_pos h3]; omega
      · rw [if_neg h3]; omega
    · rw [if_neg h2]; omega
  · rw [if_neg h1]
    by_cases h2 : avg < 1 ∧ bs < 100
    · rw [if_pos h2]
      by_cases h3 : bs * 12 / 10 > 100
      · rw [if_pos h3]; omega
      · rw [if_neg h3]; omega
    · rw [if_neg h2]; omega

lemma adjustBatchSize_reachable_bounds (bs : Nat) (h : ReachableBatchSize bs) :
    8 ≤ bs ∧ bs ≤ 100 := by
  induction h with
  | init => exact ⟨by norm_num [maxBatchSize], by norm_num [maxBatchSize]⟩
  | step avg b _ ih => exact adjustBatchSize_mem avg b ih.1 ih.2

lemma adjustBatchSize_no_shrink (avg : ℚ) (bs : Nat) (h : ¬ 5 < avg) (h100 : bs ≤ 100) :
    bs ≤ adjustBatchSize avg bs := by
  simp only [adjustBatchSize, maxBatchSize]
  have h1 : ¬ (avg > 5 ∧ bs > 10) := fun hc => h hc.1
  rw [if_neg h1]
  by_cases h2 : avg < 1 ∧ bs < 100
  · rw [if_pos h2]
    by_cases h3 : bs * 12 / 10 > 100
    · rw [if_pos h3]; omega
    · rw [if_neg h3]; omega
  · rw [if_neg h2]

lemma adjustBatchSize_no_grow (avg : ℚ) (bs : Nat) (h : ¬ avg < 1) :
    adjustBatchSize avg bs ≤ bs := by
  simp only [adjustBatchSize, maxBatchSize]
  by_cases h1 : avg > 5 ∧ bs > 10
  · rw [if_pos h1, if_neg (fun hc => h hc.1)]; omega
  · rw [if_neg h1, if_neg (fun hc => h hc.1)]

/-- C4, amended: every reachable batch size lies in [8, 100] (not [10, 100]:
the integer-division shrink maps 12 to 9 and 11 to 8, and sizes of 10 or less
never shrink further), every adjustment keeps it in [8, 100], the size never
shrinks unless the running average exceeds 5s, never grows unless the average
is below 1s, and is unchanged when the average lies in [1s, 5s]. -/
theorem batch_size_stays_in_8_100 (avg : ℚ) (bs : Nat) (h : ReachableBatchSize bs) :
    (8 ≤ bs ∧ bs ≤ 100) ∧
    (8 ≤ adjustBatchSize avg bs ∧ adjustBatchSize avg bs ≤ 100) ∧
    (¬ 5 < avg → bs ≤ adjustBatchSize avg bs) ∧
    (¬ avg < 1 → adjustBatchSize avg bs ≤ bs) ∧
    (1 ≤ avg → avg ≤ 5 → adjustBatchSize avg bs = bs) := by
  obtain ⟨h8, h100⟩ := adjustBatchSize_reachable_bounds bs h
  refine ⟨⟨h8, h100⟩, adjustBatchSize_mem avg bs h8 h100,
    fun hs => adjustBatchSize_no_shrink avg bs hs h100,
    fun hg => adjustBatchSize_no_grow avg bs hg, fun hl hu => ?_⟩
  have hs : ¬ 5 < avg := not_lt.mpr hu
  have hg : ¬ avg < 1 := not_lt.mpr hl
  exact le_antisymm (adjustBatchSize_no_grow avg bs hg)
    (adjustBatchSize_no_shrink avg bs hs h100)

/-- C4, witness: the amended theorem applied to the initial state (batch size
100) with a 3-second running average, every hypothesis discharged. -/
theorem batch_size_stays_in_8_100_witness :
    ((8 ≤ 100 ∧ 100 ≤ 100) ∧
      (8 ≤ adjustBatchSize 3 100 ∧ adjustBatchSize 3 100 ≤ 100)) ∧
    100 ≤ adjustBatchSize 3 100 ∧ adjustBatchSize 3 100 ≤ 100 ∧
    adjustBatchSize 3 100 = 100 := by
  have h := batch_size_stays_in_8_100 3 100 ReachableBatchSize.init
  exact ⟨⟨h.1, h.2.1⟩, h.2.2.1 (by norm_num), h.2.2.2.1 (by norm_num),
    h.2.2.2.2 (by norm_num) (by norm_num)⟩

/-- C5, amended: `AcknowledgeAlert` and `ResolveAlert` check no status
precondition. Whenever the alert exists — whatever its status, including
Resolved — acknowledge succeeds and overwrites it to Acknowledged, and resolve
succeeds and overwrites it to Resolved (so resolve from Active or Acknowledged
succeeds, as the claim says, but so does everything else); the only failure is
an alert that does not exist. -/
theorem acknowledge_resolve_unconditional (db : List Alert) (alertID : Nat)
    (userID : String) (now : Int) (a : Alert) (h : findAlert db alertID = some a) :
    AcknowledgeAlert db alertID userID now =
      Except.ok (saveAlert db { a with
        status := AlertStatusAcknowledged
        acknowledgedBy := userID
        acknowledgedAt := now }) ∧
    ResolveAlert db alertID userID now =
      Except.ok (saveAlert db { a with
        status := AlertStatusResolved
        resolvedBy := userID
        resolvedAt := now }) ∧
    (∀ (db2 : List Alert) (id2 : Nat), findAlert db2 id2 = none →
      AcknowledgeAlert db2 id2 userID now = Except.error "failed to find alert" ∧
      ResolveAlert db2 id2 userID now = Except.error "failed to find alert") := by
  refine ⟨?_, ?_, ?_⟩
  · simp only [AcknowledgeAlert, h]
  · simp only [ResolveAlert, h]
  · intro db2 id2 h2
    constructor
    · simp only [AcknowledgeAlert, h2]
    · simp only [ResolveAlert, h2]

/-- C5, witness: the amended theorem applied to a one-row store holding an
Active alert, plus the not-found branch on an empty store. -/
theorem acknowledge_resolve_unconditional_witness :
    AcknowledgeAlert [{ resolvedAlert with status := AlertStatusActive }] 1 "bob" 7 =
      Except.ok (saveAlert [{ resolvedAlert with status := AlertStatusActive }]
        { { resolvedAlert with status := AlertStatusActive } with
          status := AlertStatusAcknowledged
          acknowledgedBy := "bob"
          acknowledgedAt := 7 }) ∧
    ResolveAlert [{ resolvedAlert with status := AlertStatusActive }] 1 "bob" 7 =
      Except.ok (saveAlert [{ resolvedAlert with status := AlertStatusActive }]
        { { resolvedAlert with status := AlertStatusActive } with
          status := AlertStatusResolved
          resolvedBy := "bob"
          resolvedAt := 7 }) ∧
    AcknowledgeAlert [] 0 "bob" 7 = Except.error "failed to find alert" := by
  have h := acknowledge_resolve_unconditional
    [{ resolvedAlert with status := AlertStatusActive }] 1 "bob" 7
    { resolvedAlert with status := AlertStatusActive } rfl
  exact ⟨h.1, h.2.1, (h.2.2 [] 0 rfl).1⟩

/-- C6: the claim fails on the code in both halves. An error in the immediate
first collection makes `Start` return the error with the loop never spawned.
And even after a successful first collection the scheduler does not retry on
the next interval: the deferred `ticker.Stop()` (collector.go line 69) stops
the ticker the moment `Start` returns, so the loop runs at most the single
tick that was buffered while the initial collection ran — whether that one
collection fails changes nothing — and no later interval ever delivers
another tick, long before any `stop()`. -/
theorem start_runs_at_most_one_collection :
    (∀ (b : Bool) (t : Option String), (CollectorStart none b t).loopCollections ≤ 1) ∧
    (∀ (b : Bool) (t t2 : Option String), CollectorStart none b t = CollectorStart none b t2) ∧
    CollectorStart none true (some "boom") = ⟨none, 1⟩ ∧
    CollectorStart none false none = ⟨none, 0⟩ ∧
    (∀ (b : Bool) (t : Option String) (e : String),
      CollectorStart (some e) b t = ⟨some e, 0⟩) := by
  refine ⟨?_, ?_, rfl, rfl, ?_⟩
  · intro b t
    cases b <;> simp [CollectorStart]
  · intro b t t2
    rfl
  · intro b t e
    rfl

lemma evaluate_nonviolating_step (rule : AlertRule) (stats : ContainerStats)
    (now : Int) (st : ruleState)
    (hm : evaluateCondition rule.operator (extractMetricValue rule.metric stats)
      rule.threshold = false) :
    (EvaluateMetric noFail noFail rule stats now st).state.isViolating = false := by
  simp only [EvaluateMetric, hm, Bool.false_eq_true, if_false]
  cases hsv : st.isViolating <;> simp [hsv]

lemma evaluate_fresh_violation_step (rule : AlertRule) (stats : ContainerStats)
    (now : Int) (st : ruleState) (h : st.isViolating = false)
    (hv : evaluateCondition rule.operator (extractMetricValue rule.metric stats)
      rule.threshold = true) :
    (EvaluateMetric noFail noFail rule stats now st).state.violationStart = now ∧
    ((EvaluateMetric noFail noFail rule stats now st).alert.isSome ↔
      rule.duration ≤ 0) := by
  have h2 : now - now ≥ rule.duration ↔ rule.duration ≤ 0 := by omega
  simp only [EvaluateMetric, hv, if_true, h, Bool.not_false, noFail]
  by_cases hd : rule.duration ≤ 0
  · simp [h2, hd]
  · simp [h2, hd]

/-- C9: a non-violating sample fully resets the violation window. After
evaluating any non-violating sample from any prior state, the cached state is
not violating; a violating sample evaluated next starts a fresh window with
`violationStart` equal to its own evaluation time `t2`, and that evaluation
fires an alert only when `t2 - t2 ≥ duration`, i.e. only for durations ≤ 0 —
no violating time accumulated before the reset counts toward the duration. -/
theorem nonviolating_sample_resets_window (rule : AlertRule) (st : ruleState)
    (m v : ContainerStats) (t1 t2 : Int)
    (hm : evaluateCondition rule.operator (extractMetricValue rule.metric m) rule.threshold = false)
    (hv : evaluateCondition rule.operator (extractMetricValue rule.metric v) rule.threshold = true) :
    ((EvaluateMetric noFail noFail rule m t1 st).state.isViolating = false) ∧
    ((EvaluateMetric noFail noFail rule v t2
        (EvaluateMetric noFail noFail rule m t1 st).state).state.violationStart = t2) ∧
    (((EvaluateMetric noFail noFail rule v t2
        (EvaluateMetric noFail noFail rule m t1 st).state).alert).isSome ↔
      rule.duration ≤ 0) := by
  have h1 := evaluate_nonviolating_step rule m t1 st hm
  have h2 := evaluate_fresh_violation_step rule v t2
    (EvaluateMetric noFail noFail rule m t1 st).state h1 hv
  exact ⟨h1, h2.1, h2.2⟩

/-- C9, witness: the reset theorem on the spec scenario rule (cpu > 90 for
300s): a 60% sample then a 95% sample at t = 100. -/
theorem nonviolating_sample_resets_window_witness :
    ((EvaluateMetric noFail noFail c1Rule (cpuSample 60) 0 ruleState.init).state.isViolating
        = false) ∧
    ((EvaluateMetric noFail noFail c1Rule (cpuSample 95) 100
        (EvaluateMetric noFail noFail c1Rule (cpuSample 60) 0
          ruleState.init).state).state.violationStart = 100) ∧
    (((EvaluateMetric noFail noFail c1Rule (cpuSample 95) 100
        (EvaluateMetric noFail noFail c1Rule (cpuSample 60) 0
          ruleState.init).state).alert).isSome ↔ c1Rule.duration ≤ 0) :=
  nonviolating_sample_resets_window c1Rule ruleState.init (cpuSample 60) (cpuSample 95)
    0 100 (by decide) (by decide)

/-- C10: a rule whose operator is outside {>, <, >=, <=, ==} never violates —
`evaluateCondition` returns false for every value, so `EvaluateMetric` leaves
the state non-violating, fires no alert and returns no error — and a rule
whose metric is outside the recognized set is evaluated against the constant 0:
`extractMetricValue` returns 0 for every sample and the recorded last value
is 0. -/
theorem unknown_operator_never_violates_unknown_metric_reads_zero (op metric : String)
    (hop : op ≠ OperatorGT ∧ op ≠ OperatorLT ∧ op ≠ OperatorGTE ∧
      op ≠ OperatorLTE ∧ op ≠ OperatorEQ)
    (hmet : metric ≠ MetricCPUUsage ∧ metric ≠ MetricMemoryUsage ∧
      metric ≠ MetricDiskIO ∧ metric ≠ MetricNetworkIO) :
    (∀ current threshold : ℚ, evaluateCondition op current threshold = false) ∧
    (∀ stats : ContainerStats, extractMetricValue metric stats = 0) ∧
    (∀ (sendErr : Alert → Option String) (saveErr : AlertRule → Option String)
        (rule : AlertRule) (stats : ContainerStats) (now : Int) (st : ruleState),
      rule.operator = op →
        (EvaluateMetric sendErr saveErr rule stats now st).state.isViolating = false ∧
        (EvaluateMetric sendErr saveErr rule stats now st).alert = none ∧
        (EvaluateMetric sendErr saveErr rule stats now st).err = none) ∧
    (∀ (rule : AlertRule) (stats : ContainerStats) (now : Int) (st : ruleState),
      rule.metric = metric →
        (EvaluateMetric noFail noFail rule stats now st).state.lastValue = 0) := by
  obtain ⟨ho1, ho2, ho3, ho4, ho5⟩ := hop
  obtain ⟨hm1, hm2, hm3, hm4⟩ := hmet
  have hcond : ∀ current threshold : ℚ, evaluateCondition op current threshold = false := by
    intro current threshold
    simp [evaluateCondition, ho1, ho2, ho3, ho4, ho5]
  have hval : ∀ stats : ContainerStats, extractMetricValue metric stats = 0 := by
    intro stats
    simp [extractMetricValue, hm1, hm2, hm3, hm4]
  refine ⟨hcond, hval, ?_, ?_⟩
  · intro sendErr saveErr rule stats now st hrule
    have hc := hcond (extractMetricValue rule.metric stats) rule.threshold
    rw [← hrule] at hc
    simp only [EvaluateMetric, hc, Bool.false_eq_true, if_false]
    cases hsv : st.isViolating <;> simp [hsv]
  · intro rule stats now st hrule
    have hv0 : extractMetricValue rule.metric stats = 0 := by
      rw [hrule]; exact hval stats
    simp only [EvaluateMetric, hv0, noFail]
    cases hc : evaluateCondition rule.operator 0 rule.threshold <;>
      cases hsv : st.isViolating <;> simp [hc, hsv] <;> split <;> simp

/-- C10, witness: operator `!=` and metric `gpu_percent` (both unrecognized)
on the spec scenario rule shape. -/
theorem unknown_operator_never_violates_witness :
    evaluateCondition "!=" 95 90 = false ∧
    extractMetricValue "gpu_percent" (cpuSample 95) = 0 ∧
    (EvaluateMetric noFail noFail c10Rule (cpuSample 95) 17 ruleState.init).state.isViolating
      = false ∧
    (EvaluateMetric noFail noFail c10Rule (cpuSample 95) 17 ruleState.init).alert = none ∧
    (EvaluateMetric noFail noFail c10Rule (cpuSample 95) 17 ruleState.init).state.lastValue
      = 0 := by
  have h := unknown_operator_never_violates_unknown_metric_reads_zero "!=" "gpu_percent"
    (by refine ⟨?_, ?_, ?_, ?_, ?_⟩ <;> decide)
    (by refine ⟨?_, ?_, ?_, ?_⟩ <;> decide)
  have h3 := h.2.2.1 noFail noFail c10Rule (cpuSample 95) 17 ruleState.init rfl
  exact ⟨h.1 95 90, h.2.1 (cpuSample 95), h3.1, h3.2.1,
    h.2.2.2 c10Rule (cpuSample 95) 17 ruleState.init rfl⟩

lemma evaluateMetric_err_none (sendErr : Alert → Option String)
    (saveErr : AlertRule → Option String) (hsend : ∀ a, sendErr a = none)
    (hsave : ∀ r, saveErr r = none) (rule : AlertRule) (stats : ContainerStats)
    (now : Int) (st : ruleState) :
    (EvaluateMetric sendErr saveErr rule stats now st).err = none := by
  simp only [EvaluateMetric, hsend, hsave]
  repeat' split
  all_goals rfl

lemma evaluateRulesLoop_ok (sendErr : Alert → Option String)
    (saveErr : AlertRule → Option String) (hsend : ∀ a, sendErr a = none)
    (hsave : ∀ r, saveErr r = none) (stats : ContainerStats) (now : Int)
    (l : List AlertRule) :
    ∀ cache : Nat → ruleState,
      (evaluateRulesLoop sendErr saveErr stats now cache l).2 =
        ((l.filter (fun r => ruleMatches r stats)).map (·.id), none) := by
  induction l with
  | nil => intro cache; rfl
  | cons rule rest ih =>
    intro cache
    have herr := evaluateMetric_err_none sendErr saveErr hsend hsave rule stats now
      (cache rule.id)
    by_cases e1 : rule.containerID = "" <;> by_cases e2 : rule.containerID = stats.containerID <;>
      by_cases e3 : rule.containerName = "" <;>
        by_cases e4 : rule.containerName = stats.containerName <;>
          simp [evaluateRulesLoop, ruleMatches, e1, e2, e3, e4, herr, ih]

/-- C8: when the database and the notification sinks are up (no effect
errors), `EvaluateRules` invokes the evaluator exactly on the enabled rules
whose target filter matches the sample — an empty container-id/name filter
matches everything, a non-empty one only by exact equality — and returns no
error. -/
theorem enabled_matching_rules_evaluated (sendErr : Alert → Option String)
    (saveErr : AlertRule → Option String) (db : List AlertRule)
    (stats : ContainerStats) (now : Int) (cache : Nat → ruleState)
    (hsend : ∀ a, sendErr a = none) (hsave : ∀ r, saveErr r = none) :
    (EvaluateRules sendErr saveErr db stats now cache).2 =
      ((db.filter (fun r => r.isEnabled && ruleMatches r stats)).map (·.id), none) := by
  unfold EvaluateRules
  rw [evaluateRulesLoop_ok sendErr saveErr hsend hsave stats now _ cache,
    List.filter_filter]
  have hcomm : (fun a : AlertRule => ruleMatches a stats && a.isEnabled) =
      (fun r : AlertRule => r.isEnabled && ruleMatches r stats) := by
    funext r
    exact Bool.and_comm _ _
  rw [hcomm]

/-- C8, witness: three rules — enabled and matching, disabled, and targeting a
different container id — against a `c1`/`web` sample: only rule 1 is
evaluated, with no error. -/
theorem enabled_matching_rules_evaluated_witness :
    (EvaluateRules noFail noFail [c1Rule, c8RuleOff, c8RuleOther] (cpuSample 95) 0
        (fun _ => ruleState.init)).2 = ([1], none) := by
  have h := enabled_matching_rules_evaluated noFail noFail
    [c1Rule, c8RuleOff, c8RuleOther] (cpuSample 95) 0 (fun _ => ruleState.init)
    (fun _ => rfl) (fun _ => rfl)
  rw [h]
  rfl

lemma toOption_eq_some_iff {e : Except String ContainerStats} {s : ContainerStats} :
    e.toOption = some s ↔ e = Except.ok s := by
  cases e <;> simp [Except.toOption]

lemma fetchBatch_fst (attempts : String → Nat → Option RawStats) (batch : List String) :
    (fetchBatch attempts batch).1 = fetchSuccesses attempts batch := by
  induction batch with
  | nil => rfl
  | cons c rest ih =>
    simp only [fetchBatch, fetchSuccesses, List.filterMap_cons]
    cases h : collectContainerStatsWithRetry c (attempts c) <;>
      simp [h, Except.toOption, ih, fetchSuccesses]

lemma mem_fetchSuccesses {attempts : String → Nat → Option RawStats}
    {batch : List String} {s : ContainerStats} :
    s ∈ fetchSuccesses attempts batch ↔
      ∃ c ∈ batch, collectContainerStatsWithRetry c (attempts c) = Except.ok s := by
  simp [fetchSuccesses, List.mem_filterMap, toOption_eq_some_iff]

lemma retry_ok_containerID {c : String} {attempts : Nat → Option RawStats}
    {s : ContainerStats} (h : collectContainerStatsWithRetry c attempts = Except.ok s) :
    s.containerID = c := by
  simp only [collectContainerStatsWithRetry, retryAttempts] at h
  cases h0 : attempts 0 <;> cases h1 : attempts 1 <;> cases h2 : attempts 2 <;>
    simp [tryAttempts, h0, h1, h2] at h <;> simp [← h, mkStats]

lemma retry_all_failed {c : String} {attempts : Nat → Option RawStats}
    (h0 : attempts 0 = none) (h1 : attempts 1 = none) (h2 : attempts 2 = none) :
    collectContainerStatsWithRetry c attempts = Except.error "failed after 3 attempts" := by
  simp [collectContainerStatsWithRetry, retryAttempts, tryAttempts, h0, h1, h2]

lemma insertLoop_eq_none {createOk : ContainerStats → Bool} {stats : List ContainerStats}
    (h : ∀ s ∈ stats, createOk s = true) : insertLoop createOk stats = none := by
  induction stats with
  | nil => rfl
  | cons s rest ih =>
    simp [insertLoop, h s (by simp), ih (fun x hx => h x (by simp [hx]))]

lemma insertLoop_eq_some {createOk : ContainerStats → Bool} {stats : List ContainerStats}
    (h : ∃ s ∈ stats, createOk s = false) :
    insertLoop createOk stats = some "create failed" := by
  induction stats with
  | nil => simp at h
  | cons s rest ih =>
    by_cases hs : createOk s = true
    · obtain ⟨x, hx, hcx⟩ := h
      rcases List.mem_cons.mp hx with rfl | hx2
      · rw [hs] at hcx; cases hcx
      · simp [insertLoop, hs, ih ⟨x, hx2, hcx⟩]
    · have hs0 : createOk s = false := by revert hs; cases createOk s <;> simp
      simp [insertLoop, hs0]

lemma processBatch_persisted_ok (attempts : String → Nat → Option RawStats)
    (createOk : ContainerStats → Bool) (sendErr : Alert → Option String)
    (saveErr : AlertRule → Option String) (db : List AlertRule) (now : Int)
    (cache : Nat → ruleState) (batch : List String)
    (h : ∀ s ∈ fetchSuccesses attempts batch, createOk s = true) :
    (processBatch attempts createOk sendErr saveErr db now cache batch).persisted =
      fetchSuccesses attempts batch := by
  have hf := fetchBatch_fst attempts batch
  unfold processBatch
  by_cases he : (fetchBatch attempts batch).1.isEmpty
  · simp only [he, if_true]
    rw [← hf]
    exact (List.isEmpty_iff.mp he).symm
  · simp only [he, if_false, Bool.false_eq_true]
    have hins : batchInsertStats createOk (fetchBatch attempts batch).1 =
        Except.ok (fetchBatch attempts batch).1 := by
      unfold batchInsertStats
      rw [insertLoop_eq_none (by rw [hf]; exact h)]
    rw [hins]
    exact hf

lemma processBatch_persisted_cases (attempts : String → Nat → Option RawStats)
    (createOk : ContainerStats → Bool) (sendErr : Alert → Option String)
    (saveErr : AlertRule → Option String) (db : List AlertRule) (now : Int)
    (cache : Nat → ruleState) (batch : List String) :
    (processBatch attempts createOk sendErr saveErr db now cache batch).persisted = [] ∨
    (processBatch attempts createOk sendErr saveErr db now cache batch).persisted =
      fetchSuccesses attempts batch := by
  have hf := fetchBatch_fst attempts batch
  unfold processBatch
  by_cases he : (fetchBatch attempts batch).1.isEmpty
  · left; simp only [he, if_true]
  · simp only [he, if_false, Bool.false_eq_true]
    cases hins : batchInsertStats createOk (fetchBatch attempts batch).1 with
    | error e => left; simp [hins]
    | ok rows =>
      right
      unfold batchInsertStats at hins
      cases hl : insertLoop createOk (fetchBatch attempts batch).1 <;> rw [hl] at hins
      · simp only [Except.ok.injEq] at hins
        simp [hins.symm ▸ hf, ← hins, hf]
      · cases hins

lemma processBatch_insert_fail (attempts : String → Nat → Option RawStats)
    (createOk : ContainerStats → Bool) (sendErr : Alert → Option String)
    (saveErr : AlertRule → Option String) (db : List AlertRule) (now : Int)
    (cache : Nat → ruleState) (batch : List String)
    (h : ∃ s ∈ fetchSuccesses attempts batch, createOk s = false) :
    (processBatch attempts createOk sendErr saveErr db now cache batch).persisted = [] ∧
    (processBatch attempts createOk sendErr saveErr db now cache batch).errors =
      (fetchBatch attempts batch).2 ++ ["error inserting stats batch: create failed"] := by
  have hf := fetchBatch_fst attempts batch
  have hne : (fetchBatch attempts batch).1 ≠ [] := by
    obtain ⟨x, hx, _⟩ := h
    rw [hf]
    intro hnil
    rw [hnil] at hx
    cases hx
  have he : (fetchBatch attempts batch).1.isEmpty = false := by
    revert hne
    cases (fetchBatch attempts batch).1 <;> simp
  have hins : batchInsertStats createOk (fetchBatch attempts batch).1 =
      Except.error "create failed" := by
    unfold batchInsertStats
    rw [insertLoop_eq_some (by rw [hf]; exact h)]
  simp only [processBatch, he, Bool.false_eq_true, if_false, hins]
  exact ⟨trivial, rfl⟩

/-- C7: within a batch, a container whose three fetch attempts all fail is
excluded from the batch's persisted rows while every container whose fetch
succeeded is still persisted (when the insert transaction succeeds); and the
batch insert is atomic — if every row create succeeds the persisted rows are
exactly the fetch successes, and if any create fails nothing of the batch is
persisted and exactly one insert error is reported for the batch, after the
per-container fetch errors. -/
theorem failed_fetch_excluded_and_batch_insert_atomic
    (attempts : String → Nat → Option RawStats) (createOk : ContainerStats → Bool)
    (sendErr : Alert → Option String) (saveErr : AlertRule → Option String)
    (db : List AlertRule) (now : Int) (cache : Nat → ruleState) (batch : List String) :
    ((∀ s ∈ fetchSuccesses attempts batch, createOk s = true) →
      (processBatch attempts createOk sendErr saveErr db now cache batch).persisted =
        fetchSuccesses attempts batch) ∧
    ((∃ s ∈ fetchSuccesses attempts batch, createOk s = false) →
      (processBatch attempts createOk sendErr saveErr db now cache batch).persisted = [] ∧
      (processBatch attempts createOk sendErr saveErr db now cache batch).errors =
        (fetchBatch attempts batch).2 ++ ["error inserting stats batch: create failed"]) ∧
    (∀ c ∈ batch, attempts c 0 = none → attempts c 1 = none → attempts c 2 = none →
      ∀ s ∈ (processBatch attempts createOk sendErr saveErr db now cache batch).persisted,
        s.containerID ≠ c) ∧
    (∀ c ∈ batch, ∀ s : ContainerStats,
      collectContainerStatsWithRetry c (attempts c) = Except.ok s →
      (∀ x ∈ fetchSuccesses attempts batch, createOk x = true) →
      s ∈ (processBatch attempts createOk sendErr saveErr db now cache batch).persisted) := by
  refine ⟨processBatch_persisted_ok attempts createOk sendErr saveErr db now cache batch,
    processBatch_insert_fail attempts createOk sendErr saveErr db now cache batch,
    ?_, ?_⟩
  · intro c _ h0 h1 h2 s hs heq
    have hmem : s ∈ fetchSuccesses attempts batch := by
      rcases processBatch_persisted_cases attempts createOk sendErr saveErr db now cache
        batch with hnil | hsucc
      · rw [hnil] at hs; cases hs
      · rw [hsucc] at hs; exact hs
    obtain ⟨c2, _, hok⟩ := mem_fetchSuccesses.mp hmem
    have hid : s.containerID = c2 := retry_ok_containerID hok
    rw [heq] at hid
    rw [← hid] at hok
    rw [retry_all_failed h0 h1 h2] at hok
    cases hok
  · intro c hc s hok hall
    rw [processBatch_persisted_ok attempts createOk sendErr saveErr db now cache batch hall]
    exact mem_fetchSuccesses.mpr ⟨c, hc, hok⟩

/-- C7, witness: a two-container batch where `bad` fails all three attempts
and `good` succeeds immediately, every row create succeeding: the persisted
rows are exactly the fetch successes, no persisted row belongs to `bad`, and
`good`'s row is persisted. -/
theorem failed_fetch_excluded_and_batch_insert_atomic_witness :
    ((processBatch attempts7 (fun _ => true) noFail noFail [] 0 (fun _ => ruleState.init)
        ["good", "bad"]).persisted = fetchSuccesses attempts7 ["good", "bad"]) ∧
    (mkStats "good" rawWeb).containerID ≠ "bad" ∧
    mkStats "good" rawWeb ∈ (processBatch attempts7 (fun _ => true) noFail noFail [] 0
      (fun _ => ruleState.init) ["good", "bad"]).persisted := by
  have h := failed_fetch_excluded_and_batch_insert_atomic attempts7 (fun _ => true)
    noFail noFail [] 0 (fun _ => ruleState.init) ["good", "bad"]
  have hmem := h.2.2.2 "good" (by decide) (mkStats "good" rawWeb) (by rfl)
    (by intro x _; rfl)
  exact ⟨h.1 (by intro x _; rfl),
    h.2.2.1 "bad" (by decide) rfl rfl rfl (mkStats "good" rawWeb) hmem, hmem⟩

lemma processBatch_evaluated_eq (attempts : String → Nat → Option RawStats)
    (createOk : ContainerStats → Bool) (sendErr : Alert → Option String)
    (saveErr : AlertRule → Option String) (db : List AlertRule) (now : Int)
    (cache : Nat → ruleState) (batch : List String) :
    (processBatch attempts createOk sendErr saveErr db now cache batch).evaluatedSamples =
      ((processBatch attempts createOk sendErr saveErr db now cache
        batch).persisted).map (·.containerID) := by
  simp only [processBatch]
  split
  · rfl
  · split <;> rfl

/-- C3, amended: an evaluation error for one rule stops evaluation of the
remaining rules for that sample (`EvaluateRules` returns its first error
immediately), but it does not stop evaluation of other samples — every
persisted sample of a batch is fed to the evaluator regardless of earlier
per-sample errors — and every per-container fetch error, per-batch insert
error and per-sample evaluation error of the tick is collected and combined
into one aggregate error returned from the tick, never thrown per item. -/
theorem rule_error_aborts_sample_but_tick_aggregates
    (sendErr : Alert → Option String) (saveErr : AlertRule → Option String)
    (db : List AlertRule) (now : Int) (attempts : String → Nat → Option RawStats)
    (createOk : ContainerStats → Bool) (cache : Nat → ruleState)
    (batch : List String) (listC : List String) (bs : Nat)
    (stats : ContainerStats) (rule : AlertRule) (rest : List AlertRule) (e : String)
    (h1 : (EvaluateMetric sendErr saveErr rule stats now (cache rule.id)).err = some e)
    (h2 : ruleMatches rule stats = true) :
    ((evaluateRulesLoop sendErr saveErr stats now cache (rule :: rest)).2 =
      ([rule.id], some ("failed to evaluate rule: " ++ e))) ∧
    ((processBatch attempts createOk sendErr saveErr db now cache batch).evaluatedSamples =
      ((processBatch attempts createOk sendErr saveErr db now cache
        batch).persisted).map (·.containerID)) ∧
    (collectTick (Except.ok listC) bs attempts createOk sendErr saveErr db now cache =
      (if ((processBatches attempts createOk sendErr saveErr db now cache
            (chunk bs listC)).map (·.errors)).flatten = [] then
        Except.ok (processBatches attempts createOk sendErr saveErr db now cache
          (chunk bs listC))
      else
        Except.error ("collection errors: " ++ String.intercalate "; "
          ((processBatches attempts createOk sendErr saveErr db now cache
            (chunk bs listC)).map (·.errors)).flatten))) := by
  refine ⟨?_, processBatch_evaluated_eq attempts createOk sendErr saveErr db now cache batch,
    rfl⟩
  simp only [ruleMatches, Bool.and_eq_true, Bool.or_eq_true, decide_eq_true_eq] at h2
  obtain ⟨hma, hmb⟩ := h2
  have hs1 : (decide (rule.containerID ≠ "") &&
      decide (rule.containerID ≠ stats.containerID)) = false := by
    rcases hma with h | h <;> simp [h]
  have hs2 : (decide (rule.containerName ≠ "") &&
      decide (rule.containerName ≠ stats.containerName)) = false := by
    rcases hmb with h | h <;> simp [h]
  simp only [evaluateRulesLoop, hs1, hs2, Bool.false_eq_true, if_false, h1]

/-- C3, witness: the aggregation theorem at a one-rule store under a
notification outage, with every hypothesis discharged concretely. -/
theorem rule_error_aborts_sample_but_tick_aggregates_witness :
    ((evaluateRulesLoop sendFail noFail (cpuSample 95) 0 (fun _ => ruleState.init)
        [c3RuleA, c3RuleB]).2 =
      ([1], some ("failed to evaluate rule: " ++ "failed to send alert: smtp down"))) ∧
    ((processBatch attempts7 (fun _ => true) sendFail noFail [c3RuleA] 0
        (fun _ => ruleState.init) ["good"]).evaluatedSamples =
      ((processBatch attempts7 (fun _ => true) sendFail noFail [c3RuleA] 0
        (fun _ => ruleState.init) ["good"]).persisted).map (·.containerID)) ∧
    (collectTick (Except.ok ["good"]) 1 attempts7 (fun _ => true) sendFail noFail
        [c3RuleA] 0 (fun _ => ruleState.init) =
      (if ((processBatches attempts7 (fun _ => true) sendFail noFail [c3RuleA] 0
            (fun _ => ruleState.init) (chunk 1 ["good"])).map (·.errors)).flatten = [] then
        Except.ok (processBatches attempts7 (fun _ => true) sendFail noFail [c3RuleA] 0
          (fun _ => ruleState.init) (chunk 1 ["good"]))
      else
        Except.error ("collection errors: " ++ String.intercalate "; "
          ((processBatches attempts7 (fun _ => true) sendFail noFail [c3RuleA] 0
            (fun _ => ruleState.init) (chunk 1 ["good"])).map (·.errors)).flatten))) := by
  exact rule_error_aborts_sample_but_tick_aggregates sendFail noFail [c3RuleA] 0
    attempts7 (fun _ => true) (fun _ => ruleState.init) ["good"] ["good"] 1
    (cpuSample 95) c3RuleA [c3RuleB] "failed to send alert: smtp down"
    (by decide) (by decide)
